import Mathlib

/-!
Shallow embedding of the talk2SQL query-safety pipeline.

Sources embedded (backend/app/...):
  * agents/sql_validator.py  — `validate_sql`, `_BLOCKED_PATTERNS`, `_ALLOWED_START`
  * agents/intent_guard.py   — `check_intent`, `_DOMAIN_KEYWORDS`, `_llm_classify`
  * agents/sql_agent.py      — `generate_sql`, `_clean_sql`
  * schema/schema_retriever.py — `retrieve_relevant_schema`
  * api/chat.py              — `handle_query`

Python strings are modelled as Lean `String`; character classes
(whitespace, regex word characters) are modelled over the ASCII range,
which is the range the validator's vocabulary and the pipeline's SQL
dialect live in.  External collaborators (the LLM chat completion, the
database engine) are oracles passed in as `Except PyExc` values; a
raised Python exception is an `Except.error`.
-/

namespace Talk2SQL

/-- Python whitespace for `str.strip` / regex `\s` (ASCII range):
space, tab, newline, carriage return, vertical tab, form feed. -/
def pyIsSpace (c : Char) : Bool :=
  c == ' ' || c == '\t' || c == '\n' || c == '\r' || c == '\x0b' || c == '\x0c'

/-- Python `str.strip()` on a character list. -/
def pyStripList (l : List Char) : List Char :=
  ((l.dropWhile pyIsSpace).reverse.dropWhile pyIsSpace).reverse

/-- Python `str.strip()`. -/
def pyStrip (s : String) : String :=
  (pyStripList s.toList).asString

/-- Python `str.lstrip()` (used for the regex `\s*` at the start). -/
def pyLstrip (s : String) : String :=
  (s.toList.dropWhile pyIsSpace).asString

/-- Python `str.rstrip(";")` on a character list. -/
def rstripSemisL (l : List Char) : List Char :=
  (l.reverse.dropWhile (fun c => c == ';')).reverse

/-- Python `str.rstrip(";")`: drop the maximal trailing run of ';'. -/
def rstripSemis (s : String) : String :=
  (rstripSemisL s.toList).asString

/-- Python character slicing `s[:n]`. -/
def pyTake (s : String) (n : Nat) : String :=
  (s.toList.take n).asString

/-- Python `str.lower()` (ASCII range, matching `Char.toLower`). -/
def pyLower (s : String) : String :=
  (s.toList.map Char.toLower).asString

/-- Regex word character `\w` (ASCII range): letter, digit or underscore. -/
def wordChar (c : Char) : Bool :=
  c.isAlpha || c.isDigit || c == '_'

/-- Case-insensitive literal match of `kw` (given lowercase) as a prefix of
`l`; returns the rest of the list on success. -/
def kwMatch : List Char → List Char → Option (List Char)
  | [], l => some l
  | _ :: _, [] => none
  | k :: ks, c :: cs => if c.toLower == k then kwMatch ks cs else none

/-- Regex `\b` right after a matched word: the next character (if any) is
not a word character. -/
def boundaryAfter : Option (List Char) → Bool
  | none => false
  | some [] => true
  | some (c :: _) => !wordChar c

/-- Regex `\b` before a word: the previous character (if any) is not a
word character. -/
def boundaryBefore : Option Char → Bool
  | none => true
  | some c => !wordChar c

/-- A word-pattern match starting exactly at `l`: word boundary before
(`prev` is the preceding character), the literal `w`, and — when `closeB`
is true — a word boundary after. -/
def hitAt (w : List Char) (closeB : Bool) (prev : Option Char) (l : List Char) : Bool :=
  boundaryBefore prev &&
    (match kwMatch w l with
     | none => false
     | some rest => !closeB || boundaryAfter (some rest))

/-- Search for `w` (lowercase literal) anywhere in the list, requiring a
word boundary before the match, and after it when `closeB` is true. -/
def searchWord (w : List Char) (closeB : Bool) : Option Char → List Char → Bool
  | prev, [] => hitAt w closeB prev []
  | prev, c :: cs => hitAt w closeB prev (c :: cs) || searchWord w closeB (some c) cs

/-- Plain substring search (for the `--` and `/*` patterns). -/
def searchSub (w : List Char) : List Char → Bool
  | [] => (kwMatch w []).isSome
  | c :: cs => (kwMatch w (c :: cs)).isSome || searchSub w cs

/-- One compiled pattern of `_BLOCKED_PATTERNS`: a whole word (`\bW\b`),
a plain substring, or a word-start (`\bW`, used for `pg_`). -/
inductive BPat where
  | word (w : String)
  | plain (w : String)
  | wordStart (w : String)
deriving DecidableEq

/-- Search `pattern.search(stripped)` for one blocked pattern (case-insensitive,
the stored literal is lowercase). -/
def bpatSearch (p : BPat) (s : String) : Bool :=
  match p with
  | .word w => searchWord w.toList true none s.toList
  | .plain w => searchSub w.toList s.toList
  | .wordStart w => searchWord w.toList false none s.toList

/-- The list `_BLOCKED_PATTERNS` from sql_validator.py, in source order, with the
human-readable message attached to each. -/
def blockedPatterns : List (BPat × String) :=
  [ (.word "drop", "DROP statements are not allowed"),
    (.word "alter", "ALTER statements are not allowed"),
    (.word "truncate", "TRUNCATE statements are not allowed"),
    (.word "delete", "DELETE statements are not allowed"),
    (.word "insert", "INSERT statements are not allowed"),
    (.word "update", "UPDATE statements are not allowed"),
    (.word "create", "CREATE statements are not allowed"),
    (.word "grant", "GRANT statements are not allowed"),
    (.word "revoke", "REVOKE statements are not allowed"),
    (.word "execute", "EXECUTE statements are not allowed"),
    (.word "call", "CALL statements are not allowed"),
    (.plain "--", "SQL comments (--) are not allowed"),
    (.plain "/*", "Block comments (/*) are not allowed"),
    (.wordStart "pg_", "Access to pg_ system catalogs is not allowed"),
    (.word "information_schema", "Access to information_schema is not allowed") ]

/-- The first blocked pattern that matches `s`, with its message
(the validator raises on the first match). -/
def findBlocked (s : String) : Option String :=
  (blockedPatterns.find? (fun p => bpatSearch p.1 s)).map (fun p => p.2)

/-- The check `_ALLOWED_START.match(stripped)`: regex `^\s*(SELECT|WITH)\b`,
case-insensitive. -/
def allowedStart (s : String) : Bool :=
  let l := s.toList.dropWhile pyIsSpace
  boundaryAfter (kwMatch ("select".toList) l) ||
    boundaryAfter (kwMatch ("with".toList) l)

/-- The balanced parentheses scan of validate_sql: running depth must
never go negative and must end at zero. -/
def parenScan : List Char → Int → Bool
  | [], d => d == 0
  | c :: cs, d =>
    let d1 : Int := if c == '(' then d + 1 else if c == ')' then d - 1 else d
    if d1 < 0 then false else parenScan cs d1

/-- Exception `SQLValidationError(message, sql=sql)`. -/
structure SQLValidationError where
  message : String
  sql : Option String
deriving DecidableEq

/-- The body inspected by the multiple-statement check:
`stripped.rstrip(";").strip()`. -/
def bodyOf (s : String) : String :=
  pyStrip (rstripSemis (pyStrip s))

/-- Function `validate_sql` from sql_validator.py: each raise becomes an
`Except.error`, success returns the original string. -/
def validateSql (sql : String) : Except SQLValidationError String :=
  if pyStrip sql == "" then
    .error ⟨"Empty SQL statement.", some sql⟩
  else
    if !allowedStart (pyStrip sql) then
      .error ⟨"Only SELECT queries are allowed. Your query must start with SELECT or WITH.", some sql⟩
    else
      match findBlocked (pyStrip sql) with
      | some msg => .error ⟨msg, some sql⟩
      | none =>
        if !parenScan (pyStrip sql).toList 0 then
          .error ⟨"Unbalanced parentheses in SQL.", some sql⟩
        else
          if (bodyOf sql).toList.contains ';' then
            .error ⟨"Multiple SQL statements are not allowed. Only single queries are permitted.", some sql⟩
          else
            .ok sql

deriving instance DecidableEq for Except

/-! ## intent_guard.py -/

/-- A Python exception value: whether it is a `ValueError` (the only
type the orchestrator's generation stage catches), its type name
(`type(e).__name__`) and its `str(e)` text. -/
structure PyExc where
  isValueError : Bool
  tyName : String
  msg : String
deriving DecidableEq

/-- One atom of a compiled domain-keyword regex: a literal character or
the `.?` gadget (zero or one non-newline character). -/
inductive RAtom where
  | lit (c : Char)
  | anyOpt
deriving DecidableEq

/-- Compile one keyword of `_DOMAIN_KEYWORDS` (a literal augmented with
`.?` gadgets) into its atom list. -/
def mkPat : List Char → List RAtom
  | [] => []
  | '.' :: '?' :: rest => .anyOpt :: mkPat rest
  | c :: rest => .lit c :: mkPat rest

/-- Match a compiled keyword pattern at the start of the text
(case-insensitive; `.?` consumes zero or one non-newline character). -/
def matchHere : List RAtom → List Char → Bool
  | [], _ => true
  | .lit _ :: _, [] => false
  | .lit c :: ps, d :: ds => (d.toLower == c) && matchHere ps ds
  | .anyOpt :: ps, ds =>
    matchHere ps ds ||
      (match ds with
       | [] => false
       | d :: ds2 => (d != '\n') && matchHere ps ds2)

/-- Python `re.search` of one compiled keyword pattern: a match at some
position of the text. -/
def searchPat (p : List RAtom) : List Char → Bool
  | [] => matchHere p []
  | d :: ds => matchHere p (d :: ds) || searchPat p ds

/-- The list `_DOMAIN_KEYWORDS` from intent_guard.py, in source order. -/
def domainKeywords : List String :=
  [ "employee", "staff", "worker", "salary", "salaries", "hire",
    "designation", "manager", "department", "dept",
    "attendance", "present", "absent", "late", "check.?in",
    "check.?out", "leave", "sick", "casual", "annual", "maternity",
    "half.?day", "hours.?worked",
    "inventory", "stock", "material", "raw.?material", "fabric",
    "supplier", "reorder", "quantity", "cost.?per.?unit",
    "product", "production", "manufacturing", "order",
    "target.?quantity", "completed", "stitching", "cutting",
    "product.?code", "category",
    "sale", "sales", "revenue", "customer", "total.?amount",
    "selling.?price",
    "count", "average", "sum", "total", "maximum", "minimum",
    "highest", "lowest", "top", "bottom", "list", "show",
    "display", "report", "how many", "which" ]

/-- The scan `_DOMAIN_PATTERN.search(query)`: some keyword pattern of the
alternation matches somewhere in the query (case-insensitive). -/
def domainSearch (query : String) : Bool :=
  domainKeywords.any (fun kw => searchPat (mkPat kw.toList) query.toList)

/-- The fixed user-facing rejection string `REJECTION_MESSAGE`. -/
def REJECTION_MESSAGE : String :=
  "Please enter a query related to the system's database (employees, inventory, production, or sales)."

/-- The `IntentResult` dataclass. -/
structure IntentResult where
  is_in_domain : Bool
  rejection_message : Option String
deriving DecidableEq

/-- Helper `_llm_classify`: `response.strip().lower().startswith("yes")`,
applied to the chat-completion oracle's reply. -/
def llmClassify (reply : String) : Bool :=
  ("yes".toList).isPrefixOf ((pyLower (pyStrip reply)).toList)

/-- Function `check_intent` from intent_guard.py.  The LLM collaborator is the
oracle `llm` (its raised exception, if any, is `Except.error`).  The
second component records whether the escalation call was made. -/
def checkIntent (query : String) (llm : Except PyExc String) : IntentResult × Bool :=
  if domainSearch query then (⟨true, none⟩, false)
  else
    match llm with
    | .ok reply =>
      if llmClassify reply then (⟨true, none⟩, true)
      else (⟨false, some REJECTION_MESSAGE⟩, true)
    | .error _ => (⟨false, some REJECTION_MESSAGE⟩, true)

/-! ## sql_agent.py -/

/-- Python `re.sub(r"^```(?:sql)?\s*", "", raw, flags=re.IGNORECASE)` on a
character list: strip a leading markdown fence, an optional `sql` tag
and following whitespace. -/
def stripLeadFenceL (l : List Char) : List Char :=
  if ("```".toList).isPrefixOf l then
    let r := l.drop 3
    let r2 := if (r.take 3).map Char.toLower == "sql".toList then r.drop 3 else r
    r2.dropWhile pyIsSpace
  else l

/-- Python `re.sub(r"\s*```$", "", cleaned)` on a character list: strip a
trailing markdown fence and the whitespace run before it; without
`re.MULTILINE`, `$` matches at the end of the text or just before a
final newline, so the fence is also stripped when exactly one newline
follows it. -/
def stripTrailFenceL (l : List Char) : List Char :=
  let rl := l.reverse
  if ("```".toList).isPrefixOf rl then
    ((rl.drop 3).dropWhile pyIsSpace).reverse
  else if ("\n```".toList).isPrefixOf rl then
    (((rl.drop 4).dropWhile pyIsSpace).reverse) ++ ['\n']
  else l

/-- Helper `_clean_sql` from sql_agent.py: fences, strip, trailing semicolons,
strip. -/
def cleanSql (raw : String) : String :=
  (pyStripList
    (rstripSemisL (pyStripList (stripTrailFenceL (stripLeadFenceL raw.toList))))).asString

/-- The `ValueError` raised by `generate_sql` on empty cleaned output. -/
def emptyGenExc : PyExc :=
  ⟨true, "ValueError", "SQL generation failed — LLM returned empty response."⟩

/-- Function `generate_sql` from sql_agent.py, as a function of the
chat-completion oracle's outcome: a raised collaborator exception passes
through uncaught; otherwise the reply is cleaned and an empty result
raises `ValueError`. -/
def generateSql (chatRes : Except PyExc String) : Except PyExc String :=
  match chatRes with
  | .error e => .error e
  | .ok raw =>
    if cleanSql raw == "" then .error emptyGenExc else .ok (cleanSql raw)

/-! ## schema_retriever.py -/

/-- One row of the `information_schema.columns` introspection query:
column name, data type, `is_nullable` flag text, `column_default`. -/
structure ColMeta where
  name : String
  dataType : String
  isNullable : String
  colDefault : Option String
deriving DecidableEq

/-- One table of the catalog introspection result. -/
structure TableMeta where
  name : String
  cols : List ColMeta
deriving DecidableEq

/-- Python truthiness of `column_default` (`None` and `""` are falsy). -/
def pyTruthy (o : Option String) : Bool :=
  match o with
  | none => false
  | some d => d != ""

/-- The `column_details[col_name]` string built per column:
`' '.join(detail_parts)`. -/
def colDetail (c : ColMeta) : String :=
  String.intercalate (" ")
    ([c.dataType]
      ++ (if c.isNullable == "NO" then ["NOT NULL"] else [])
      ++ (if pyTruthy c.colDefault then ["DEFAULT " ++ c.colDefault.getD ("")] else []))

/-- One schema snippet dict appended per table. -/
structure Snippet where
  table : String
  description : String
  columns : List String
  column_details : List (String × String)
  relationships : List String
  similarity : Nat
deriving DecidableEq

/-- The snippet built for one table by the retrieval loop. -/
def mkSnippet (t : TableMeta) : Snippet :=
  { table := t.name
    description := "Table: " ++ t.name
    columns := t.cols.map (fun c => c.name)
    column_details := t.cols.map (fun c => (c.name, colDetail c))
    relationships := []
    similarity := 1 }

/-- Function `retrieve_relevant_schema` from schema_retriever.py, as a function
of the introspected catalog: one snippet per table.  The `top_k`
parameter is accepted but not applied anywhere in the body (the source
docstring: "not enforced in simplified mode"). -/
def retrieveRelevantSchema (catalog : List TableMeta) (topK : Nat) : List Snippet :=
  catalog.map mkSnippet

/-! ## executor.py / chat.py -/

/-- One result row, as the dict built by `execute_readonly_query`. -/
abbrev Row : Type := List (String × String)

/-- The structured result dict returned by `execute_readonly_query`.
Elapsed time is external input; it is carried as an opaque natural. -/
structure ExecOut where
  rows : List Row
  columns : List String
  row_count : Nat
  execution_time : Nat
deriving DecidableEq

/-- The response payload of `handle_query`: the union of the fields of
`QueryResponse` and `ErrorResponse` (they share the same shape). -/
structure Resp where
  id : String
  sql : String
  data : List Row
  columns : List String
  row_count : Nat
  execution_time : Nat
  explanation : String
  personalization_used : Bool
  status : String
  error : Option String
deriving DecidableEq

/-- An `ErrorResponse(...)`: unset fields take the model's defaults. -/
def errorResp (rid sql err expl : String) : Resp :=
  ⟨rid, sql, [], [], 0, 0, expl, false, "error", some err⟩

/-- Python `a or b` for an optional string versus a default
(`None` and `""` are falsy). -/
def pyOrStr (a : Option String) (b : String) : String :=
  match a with
  | none => b
  | some s => if s == "" then b else s

/-- The final explanation string of the success path (the first
assignment at line 187 of chat.py is dead; the if/elif/else chain
overwrites it in every case). -/
def explanationFor (n : Nat) : String :=
  if n == 0 then "No data found matching your query."
  else if n == 1 then "Found 1 matching result."
  else "Found " ++ toString n ++ " matching results."

/-- Function `handle_query` from chat.py.  `rid` is the generated request id,
`rawQuery` the incoming query text; the external collaborators appear as
oracles: `llm` is the intent guard's escalation call, `schemaRes` the
outcome of `retrieve_relevant_schema`, `chatRes` the generator LLM call
inside `generate_sql`, `execRes` the outcome of
`execute_readonly_query`.  The result carries the response together
with the statement the executor was invoked with (if it was invoked);
an uncaught Python exception is the `Except.error` case. -/
def handleQuery (rid rawQuery : String) (llm : Except PyExc String)
    (schemaRes : Except PyExc (List Snippet)) (chatRes : Except PyExc String)
    (execRes : Except PyExc ExecOut) : Except PyExc (Resp × Option String) :=
  if !(checkIntent (pyStrip rawQuery) llm).1.is_in_domain then
    .ok (errorResp rid ""
      (pyOrStr (checkIntent (pyStrip rawQuery) llm).1.rejection_message
        ("Query is not related to the system's database."))
      ("Please rephrase your query to ask about employees, inventory, production, or sales."),
      none)
  else
    match schemaRes with
    | .error e =>
      .ok (errorResp rid ""
        ("Schema retrieval error: " ++ e.tyName ++ ": " ++ pyTake e.msg 200) (""), none)
    | .ok snippets =>
      if snippets.isEmpty then
        .ok (errorResp rid ""
          ("Could not find relevant database tables for your query. Please rephrase.")
          ("Try asking about specific topics like employees, attendance, inventory, production, or sales."),
          none)
      else
        match generateSql chatRes with
        | .error e =>
          if e.isValueError then
            .ok (errorResp rid ""
              ("SQL generation failed. Please rephrase your question.")
              ("Try to be more specific about what data you want to see."), none)
          else
            .error e
        | .ok generatedSql =>
          match validateSql generatedSql with
          | .error ve =>
            .ok (errorResp rid generatedSql
              ("Generated SQL failed safety checks: " ++ ve.message) (""), none)
          | .ok _ =>
            match execRes with
            | .error e =>
              .ok (errorResp rid generatedSql
                ("Query execution failed: " ++ pyTake e.msg 200)
                ("There was an error executing your query. Please try rephrasing."),
                some generatedSql)
            | .ok ex =>
              .ok (⟨rid, generatedSql, ex.rows, ex.columns, ex.row_count,
                ex.execution_time, explanationFor ex.row_count, false, "success", none⟩,
                some generatedSql)

/-- The statement the executor was invoked with, if any, in a
`handle_query` run (an uncaught exception implies no invocation). -/
def execSqlOf (r : Except PyExc (Resp × Option String)) : Option String :=
  match r with
  | .error _ => none
  | .ok p => p.2

/-! ## Helper lemmas -/

/-- A successful validation returns the input string unchanged. -/
theorem validateSql_ok_eq {s t : String} (h : validateSql s = Except.ok t) : t = s := by
  unfold validateSql at h
  split at h
  · cases h
  · split at h
    · cases h
    · split at h
      · cases h
      · split at h
        · cases h
        · split at h
          · cases h
          · cases h; rfl

/-- If the head of `dropWhile p l` exists, it fails `p`. -/
theorem head_dropWhile_not (p : Char → Bool) (l : List Char) :
    ∀ c, (l.dropWhile p).head? = some c → p c = false := by
  induction l with
  | nil => intro c h; simp [List.dropWhile] at h
  | cons a as ih =>
    intro c h
    by_cases hp : p a
    · rw [List.dropWhile_cons_of_pos hp] at h
      exact ih c h
    · rw [List.dropWhile_cons_of_neg hp] at h
      simp at h
      subst h
      simpa using hp

/-- The function `dropWhile` keeps the last element when its result is non-empty. -/
theorem getLast?_dropWhile (p : Char → Bool) (l : List Char)
    (h : l.dropWhile p ≠ []) : (l.dropWhile p).getLast? = l.getLast? := by
  induction l with
  | nil => simp [List.dropWhile] at h
  | cons a as ih =>
    by_cases hp : p a
    · rw [List.dropWhile_cons_of_pos hp] at h ⊢
      have has : as ≠ [] := by
        intro hn; subst hn; simp [List.dropWhile] at h
      rw [ih h, List.getLast?_cons]
      cases as with
      | nil => exact absurd rfl has
      | cons b bs => simp [List.getLast?_cons]
    · rw [List.dropWhile_cons_of_neg hp]

/-- A generation failure is either the collaborator's own exception
passed through, or the agent's ValueError on empty cleaned output. -/
theorem generateSql_error {gr : Except PyExc String} {e : PyExc}
    (h : generateSql gr = Except.error e) : gr = Except.error e ∨ e = emptyGenExc := by
  cases gr with
  | error ge =>
    unfold generateSql at h
    simp only [] at h
    cases h
    exact Or.inl rfl
  | ok raw =>
    unfold generateSql at h
    simp only [] at h
    split at h
    · injection h with h2
      exact Or.inr h2.symm
    · cases h

/-- The first character of a stripped list is not whitespace. -/
theorem pyStripList_head (l : List Char) :
    ∀ c, (pyStripList l).head? = some c → pyIsSpace c = false := by
  intro c h
  unfold pyStripList at h
  rw [List.head?_reverse] at h
  by_cases hne : ((l.dropWhile pyIsSpace).reverse.dropWhile pyIsSpace) = []
  · rw [hne] at h; simp at h
  · rw [getLast?_dropWhile _ _ hne, List.getLast?_reverse] at h
    exact head_dropWhile_not _ _ c h

/-- The last character of a stripped list is not whitespace. -/
theorem pyStripList_last (l : List Char) :
    ∀ c, (pyStripList l).getLast? = some c → pyIsSpace c = false := by
  intro c h
  unfold pyStripList at h
  rw [List.getLast?_reverse] at h
  exact head_dropWhile_not _ _ c h

/-! ## Claims about the validator -/

/-- C9: a string accepted by `validate_sql` is returned exactly as it
came in — the validator is the identity on every accepted input and
never rewrites, trims or normalizes the SQL it passes on. -/
theorem claim_C9_validator_identity (s t : String)
    (h : validateSql s = Except.ok t) : t = s :=
  validateSql_ok_eq h

/-- Witness for C9 at a concrete accepted input. -/
theorem claim_C9_witness :
    validateSql ("SELECT 1") = Except.ok ("SELECT 1") ∧ ("SELECT 1" : String) = "SELECT 1" :=
  ⟨by decide, claim_C9_validator_identity ("SELECT 1") ("SELECT 1") (by decide)⟩

/-- C5 counterexample: on the empty string — which does not begin with
SELECT or WITH — `validate_sql` raises the EmptyStatement message, not
the WrongLeadingKeyword one, so the claim fails as stated. -/
theorem claim_C5_counterexample :
    validateSql ("") = Except.error ⟨"Empty SQL statement.", some ("")⟩ ∧
      ("Empty SQL statement." : String) ≠
        "Only SELECT queries are allowed. Your query must start with SELECT or WITH." :=
  ⟨by decide, by decide⟩

/-- C5 amended: every SQL string whose trimmed text is non-empty and
does not begin (case-insensitively, after leading whitespace) with the
keyword SELECT or WITH is rejected with the WrongLeadingKeyword
failure; empty and all-whitespace strings are rejected earlier as
EmptyStatement. -/
theorem claim_C5_amended (s : String)
    (h1 : (pyStrip s == "") = false)
    (h2 : allowedStart (pyStrip s) = false) :
    validateSql s =
      Except.error
        ⟨"Only SELECT queries are allowed. Your query must start with SELECT or WITH.", some s⟩ := by
  unfold validateSql
  simp [h1, h2]

/-- Witness for the amended C5 at a concrete non-SELECT input. -/
theorem claim_C5_witness :
    validateSql ("DELETE FROM t") =
      Except.error
        ⟨"Only SELECT queries are allowed. Your query must start with SELECT or WITH.",
          some ("DELETE FROM t")⟩ :=
  claim_C5_amended ("DELETE FROM t") (by decide) (by decide)

/-- C3 counterexample: on scenario C's statement the blocked-keyword
scan fires first (on DROP), so `validate_sql` reports the
BlockedKeyword message, not MultipleStatements. -/
theorem claim_C3_counterexample :
    validateSql ("SELECT * FROM employees; DROP TABLE employees;") =
      Except.error
        ⟨"DROP statements are not allowed",
          some ("SELECT * FROM employees; DROP TABLE employees;")⟩ ∧
      ("DROP statements are not allowed" : String) ≠
        "Multiple SQL statements are not allowed. Only single queries are permitted." :=
  ⟨by decide, by decide⟩

/-- C3 amended: scenario C's statement is rejected by the validator —
with the BlockedKeyword (DROP) failure, which precedes the
multiple-statement check — and for every run of the orchestrator whose
generator produced this statement the executor is never invoked. -/
theorem claim_C3_amended :
    validateSql ("SELECT * FROM employees; DROP TABLE employees;") =
      Except.error
        ⟨"DROP statements are not allowed",
          some ("SELECT * FROM employees; DROP TABLE employees;")⟩ ∧
    ∀ (rid q : String) (llm : Except PyExc String) (sr : Except PyExc (List Snippet))
      (er : Except PyExc ExecOut),
      execSqlOf
        (handleQuery rid q llm sr
          (Except.ok ("SELECT * FROM employees; DROP TABLE employees;")) er) = none := by
  refine ⟨by decide, ?_⟩
  intro rid q llm sr er
  unfold handleQuery
  split
  · rfl
  · cases sr with
    | error e => rfl
    | ok snippets =>
      simp only []
      split
      · rfl
      · rfl

/-- C4 counterexample: a statement ending in two semicolons passes
`validate_sql` — the trailing-terminator strip removes the whole
trailing run of ';', not exactly one — so the claim fails as stated. -/
theorem claim_C4_counterexample :
    validateSql ("SELECT 1;;") = Except.ok ("SELECT 1;;") := by decide

/-- C4 amended: for every statement that passes the earlier checks
(non-empty, allowed leading keyword, no blocked pattern, balanced
parentheses), the single-statement check strips the maximal trailing
run of ';' (and surrounding whitespace) from the trimmed text, and
rejects with MultipleStatements exactly when a ';' remains in that
body; a statement ending in two or more semicolons, such as
"SELECT 1;;", is accepted. -/
theorem claim_C4_amended (s : String)
    (h1 : (pyStrip s == "") = false)
    (h2 : allowedStart (pyStrip s) = true)
    (h3 : findBlocked (pyStrip s) = none)
    (h4 : parenScan (pyStrip s).toList 0 = true) :
    (validateSql s = Except.ok s ↔ ¬ (';' ∈ (bodyOf s).toList)) ∧
    (validateSql s =
        Except.error
          ⟨"Multiple SQL statements are not allowed. Only single queries are permitted.", some s⟩ ↔
      ';' ∈ (bodyOf s).toList) := by
  unfold validateSql
  rw [h3]
  by_cases hb : ';' ∈ (bodyOf s).toList <;>
    simp [h1, h2, h4, hb, String.toList] at *

/-- Witness for the amended C4 at the double-semicolon input. -/
theorem claim_C4_witness :
    (validateSql ("SELECT 1;;") = Except.ok ("SELECT 1;;") ↔
      ¬ (';' ∈ (bodyOf ("SELECT 1;;")).toList)) ∧
    (validateSql ("SELECT 1;;") =
        Except.error
          ⟨"Multiple SQL statements are not allowed. Only single queries are permitted.",
            some ("SELECT 1;;")⟩ ↔
      ';' ∈ (bodyOf ("SELECT 1;;")).toList) :=
  claim_C4_amended ("SELECT 1;;") (by decide) (by decide) (by decide) (by decide)

/-! ## Claims about the intent guard -/

/-- C6: whenever some domain keyword pattern matches the question, the
admission gate accepts without making the escalation LLM call (the
recorded call flag is false), whatever the escalation oracle would have
answered. -/
theorem claim_C6_keyword_short_circuit (q : String) (llm : Except PyExc String)
    (h : domainSearch q = true) :
    checkIntent q llm = (⟨true, none⟩, false) := by
  unfold checkIntent
  simp [h]

/-- Witness for C6 at a concrete in-domain question. -/
theorem claim_C6_witness :
    domainSearch ("Show me all employees") = true ∧
      checkIntent ("Show me all employees") (Except.ok ("yes")) = (⟨true, none⟩, false) :=
  ⟨by decide, claim_C6_keyword_short_circuit ("Show me all employees") (Except.ok ("yes")) (by decide)⟩

/-- C7: with no keyword match, an escalation call that raises — or
answers anything whose trimmed lowercase text does not begin with
"yes" — yields a rejection carrying exactly the fixed user-facing
rejection string. -/
theorem claim_C7_fail_closed (q : String) (llm : Except PyExc String)
    (hq : domainSearch q = false)
    (h : (∃ e, llm = Except.error e) ∨ (∃ r, llm = Except.ok r ∧ llmClassify r = false)) :
    checkIntent q llm = (⟨false, some REJECTION_MESSAGE⟩, true) := by
  unfold checkIntent
  rcases h with ⟨e, he⟩ | ⟨r, hr, hc⟩
  · subst he; simp [hq]
  · subst hr; simp [hq, hc]

/-- Witness for C7 at a concrete out-of-domain question with a "no"
reply. -/
theorem claim_C7_witness :
    checkIntent ("zzzz") (Except.ok ("no")) = (⟨false, some REJECTION_MESSAGE⟩, true) :=
  claim_C7_fail_closed ("zzzz") (Except.ok ("no")) (by decide)
    (Or.inr ⟨"no", rfl, by decide⟩)

/-! ## Claims about the schema retriever -/

/-- C8 counterexample: on a catalog of six tables the retrieval called
with top_k = 5 hands back six descriptors — the cap is not applied. -/
theorem claim_C8_counterexample :
    (retrieveRelevantSchema
        [⟨"t1", []⟩, ⟨"t2", []⟩, ⟨"t3", []⟩, ⟨"t4", []⟩, ⟨"t5", []⟩, ⟨"t6", []⟩] 5).length = 6 ∧
      ¬ ((retrieveRelevantSchema
        [⟨"t1", []⟩, ⟨"t2", []⟩, ⟨"t3", []⟩, ⟨"t4", []⟩, ⟨"t5", []⟩, ⟨"t6", []⟩] 5).length ≤ 5) :=
  ⟨by decide, by decide⟩

/-- C8 amended: the grounding step returns one descriptor snippet per
catalog table — all of them, unbounded — and the top_k argument has no
effect on the result, so the number handed to the generator equals the
catalog size rather than being capped at 5. -/
theorem claim_C8_amended (catalog : List TableMeta) (topK : Nat) :
    (retrieveRelevantSchema catalog topK).length = catalog.length ∧
      retrieveRelevantSchema catalog topK = retrieveRelevantSchema catalog 5 := by
  constructor
  · unfold retrieveRelevantSchema
    exact List.length_map catalog mkSnippet
  · rfl

/-! ## Claims about the SQL generation agent -/

/-- C10 counterexample: for the generator reply "SELECT 1; ;" the
cleaned text is "SELECT 1;" — `rstrip(";")` removes only the final run
of semicolons — so `generate_sql` returns a statement that still ends
with a semicolon, contradicting the claim. -/
theorem claim_C10_counterexample :
    cleanSql ("SELECT 1; ;") = "SELECT 1;" ∧
      (cleanSql ("SELECT 1; ;")).toList.getLast? = some ';' ∧
      generateSql (Except.ok ("SELECT 1; ;")) = Except.ok ("SELECT 1;") :=
  ⟨by decide, by decide, by decide⟩

set_option maxHeartbeats 1000000 in
/-- C10 amended: `generate_sql` raises its ValueError exactly when the
cleaned reply is empty, and otherwise returns the cleaned text, which
is non-empty and carries no leading or trailing whitespace; the
cleaning strips only the final maximal run of semicolons, so the
returned text can still end with a semicolon. -/
theorem claim_C10_amended (raw : String) :
    (generateSql (Except.ok raw) = Except.error emptyGenExc ↔ cleanSql raw = "") ∧
    (cleanSql raw ≠ "" → generateSql (Except.ok raw) = Except.ok (cleanSql raw)) ∧
    (∀ c, (cleanSql raw).toList.head? = some c → pyIsSpace c = false) ∧
    (∀ c, (cleanSql raw).toList.getLast? = some c → pyIsSpace c = false) := by
  refine ⟨?_, ?_, ?_, ?_⟩
  · unfold generateSql
    by_cases h : cleanSql raw = "" <;> simp [h]
  · intro h
    unfold generateSql
    simp [h]
  · intro c hc
    have : (cleanSql raw).toList =
        pyStripList (rstripSemisL (pyStripList (stripTrailFenceL (stripLeadFenceL raw.toList)))) := rfl
    rw [this] at hc
    exact pyStripList_head _ c hc
  · intro c hc
    have : (cleanSql raw).toList =
        pyStripList (rstripSemisL (pyStripList (stripTrailFenceL (stripLeadFenceL raw.toList)))) := rfl
    rw [this] at hc
    exact pyStripList_last _ c hc

/-- Witness for the amended C10 at a concrete non-empty reply. -/
theorem claim_C10_witness :
    generateSql (Except.ok ("SELECT 2")) = Except.ok (cleanSql ("SELECT 2")) :=
  (claim_C10_amended ("SELECT 2")).2.1 (by decide)

/-! ## Claims about the orchestrator -/

/-- C1: in every run of `handle_query`, if the executor is invoked with
a statement, that exact statement passed `validate_sql` and the
admission gate accepted the question; no other route produces an
execution. -/
theorem claim_C1_gated_execution (rid q : String) (llm : Except PyExc String)
    (sr : Except PyExc (List Snippet)) (gr : Except PyExc String)
    (er : Except PyExc ExecOut) (s : String)
    (h : execSqlOf (handleQuery rid q llm sr gr er) = some s) :
    validateSql s = Except.ok s ∧
      (checkIntent (pyStrip q) llm).1.is_in_domain = true := by
  unfold handleQuery at h
  split at h
  case isTrue => exact absurd h (by simp [execSqlOf])
  case isFalse hI =>
    have hint : (checkIntent (pyStrip q) llm).1.is_in_domain = true := by
      simpa using hI
    cases sr with
    | error e => exact absurd h (by simp [execSqlOf])
    | ok snippets =>
      simp only [] at h
      split at h
      · exact absurd h (by simp [execSqlOf])
      · cases hgen : generateSql gr with
        | error e =>
          rw [hgen] at h
          simp only [] at h
          split at h
          · exact absurd h (by simp [execSqlOf])
          · exact absurd h (by simp [execSqlOf])
        | ok gsql =>
          rw [hgen] at h
          simp only [] at h
          cases hval : validateSql gsql with
          | error ve =>
            rw [hval] at h
            simp only [] at h
            exact absurd h (by simp [execSqlOf])
          | ok t =>
            rw [hval] at h
            simp only [] at h
            have ht : t = gsql := validateSql_ok_eq hval
            cases er with
            | error e =>
              simp [execSqlOf] at h
              subst h
              exact ⟨by rw [hval, ht], hint⟩
            | ok ex =>
              simp [execSqlOf] at h
              subst h
              exact ⟨by rw [hval, ht], hint⟩

/-- Witness for C1 at a concrete run that reaches execution. -/
theorem claim_C1_witness :
    validateSql ("SELECT * FROM employees") = Except.ok ("SELECT * FROM employees") ∧
      (checkIntent (pyStrip ("Show me all employees")) (Except.ok ("yes"))).1.is_in_domain = true :=
  claim_C1_gated_execution ("r") ("Show me all employees") (Except.ok ("yes"))
    (Except.ok [mkSnippet ⟨"employees", []⟩]) (Except.ok ("SELECT * FROM employees"))
    (Except.ok ⟨[], [], 0, 0⟩) ("SELECT * FROM employees") (by decide)

/-- C2 counterexample: a generator failure that is not a ValueError —
here a RuntimeError raised by the generator's LLM call — propagates
uncaught past `handle_query`'s boundary, so the claim fails as stated. -/
theorem claim_C2_counterexample :
    handleQuery ("r") ("Show me all employees") (Except.ok ("yes"))
      (Except.ok [mkSnippet ⟨"employees", []⟩])
      (Except.error ⟨false, "RuntimeError", "boom"⟩)
      (Except.ok ⟨[], [], 0, 0⟩)
    = Except.error ⟨false, "RuntimeError", "boom"⟩ := by decide

set_option maxHeartbeats 2000000 in
/-- C2 amended: exceptions from the schema-retrieval and executor
collaborators (of any type), and ValueError from the generator, are
caught and converted into structured error outcomes whose messages
embed at most a 200-character prefix of the collaborator's error text;
but a generator exception that is not a ValueError propagates uncaught
— the only way `handle_query` can raise — carrying that exception
unchanged. -/
theorem claim_C2_amended (rid q : String) (llm : Except PyExc String)
    (sr : Except PyExc (List Snippet)) (gr : Except PyExc String)
    (er : Except PyExc ExecOut) :
    (∀ e, handleQuery rid q llm sr gr er = Except.error e →
        gr = Except.error e ∧ e.isValueError = false) ∧
    ((∀ e, gr = Except.error e → e.isValueError = true) →
        ∃ r, handleQuery rid q llm sr gr er = Except.ok r) ∧
    (∀ e r, handleQuery rid q llm sr gr er = Except.ok r → sr = Except.error e →
        (checkIntent (pyStrip q) llm).1.is_in_domain = true →
        r.1.error = some ("Schema retrieval error: " ++ e.tyName ++ ": " ++ pyTake e.msg 200)) ∧
    (∀ e r, handleQuery rid q llm sr gr er = Except.ok r → er = Except.error e →
        r.2 ≠ none →
        r.1.error = some ("Query execution failed: " ++ pyTake e.msg 200)) ∧
    (∀ m : String, (pyTake m 200).length ≤ 200) := by
  refine ⟨?_, ?_, ?_, ?_, ?_⟩
  · intro e he
    unfold handleQuery at he
    split at he
    · cases he
    · cases sr with
      | error e2 => cases he
      | ok snippets =>
        simp only [] at he
        split at he
        · cases he
        · cases hgen : generateSql gr with
          | error e2 =>
            rw [hgen] at he
            simp only [] at he
            split at he
            case isTrue => cases he
            case isFalse hvf =>
              cases he
              rcases generateSql_error hgen with hor | hor
              · exact ⟨hor, by simpa using hvf⟩
              · subst hor
                simp [emptyGenExc] at hvf
          | ok gsql =>
            rw [hgen] at he
            simp only [] at he
            cases hval : validateSql gsql with
            | error ve => rw [hval] at he; simp only [] at he; cases he
            | ok t =>
              rw [hval] at he
              simp only [] at he
              cases er with
              | error e2 => cases he
              | ok ex => cases he
  · intro hval
    unfold handleQuery
    split
    · exact ⟨_, rfl⟩
    · cases sr with
      | error e2 => exact ⟨_, rfl⟩
      | ok snippets =>
        simp only []
        split
        · exact ⟨_, rfl⟩
        · cases hgen : generateSql gr with
          | error e2 =>
            have hv2 : e2.isValueError = true := by
              rcases generateSql_error hgen with hor | hor
              · exact hval _ hor
              · rw [hor]
                rfl
            simp only []
            rw [if_pos hv2]
            exact ⟨_, rfl⟩
          | ok gsql =>
            simp only []
            cases validateSql gsql with
            | error ve => exact ⟨_, rfl⟩
            | ok t =>
              cases er with
              | error e2 => exact ⟨_, rfl⟩
              | ok ex => exact ⟨_, rfl⟩
  · intro e r hr hsr hint
    subst hsr
    unfold handleQuery at hr
    split at hr
    case isTrue hI => simp [hint] at hI
    case isFalse => cases hr; rfl
  · intro e r hr her hne
    subst her
    unfold handleQuery at hr
    split at hr
    · cases hr; exact absurd rfl hne
    · cases sr with
      | error e2 => cases hr; exact absurd rfl hne
      | ok snippets =>
        simp only [] at hr
        split at hr
        · cases hr; exact absurd rfl hne
        · cases hgen : generateSql gr with
          | error e2 =>
            rw [hgen] at hr
            simp only [] at hr
            split at hr
            · cases hr; exact absurd rfl hne
            · cases hr
          | ok gsql =>
            rw [hgen] at hr
            simp only [] at hr
            cases hval : validateSql gsql with
            | error ve => rw [hval] at hr; simp only [] at hr; cases hr; exact absurd rfl hne
            | ok t =>
              rw [hval] at hr
              simp only [] at hr
              cases hr
              rfl
  · intro m
    have hlen : (pyTake m 200).length = (m.toList.take 200).length := rfl
    rw [hlen]
    exact List.length_take_le _ _

/-- Witness for the amended C2 at a concrete run with no generator
exception. -/
theorem claim_C2_witness :
    ∃ r, handleQuery ("r") ("Show me all employees") (Except.ok ("yes"))
        (Except.ok [mkSnippet ⟨"employees", []⟩]) (Except.ok ("SELECT 1"))
        (Except.ok ⟨[], [], 0, 0⟩) = Except.ok r :=
  (claim_C2_amended ("r") ("Show me all employees") (Except.ok ("yes"))
    (Except.ok [mkSnippet ⟨"employees", []⟩]) (Except.ok ("SELECT 1"))
    (Except.ok ⟨[], [], 0, 0⟩)).2.1 (fun _ he => Except.noConfusion he)

end Talk2SQL
